import Mathlib

/-!
Verification of the client-side session state machine of the Smart Bill
monitoring system (src/src/Analyzer.js) against its natural-language
specification.  The component is a React function component; its state is a
single record updated through `updateState`, and the operations are the
handler functions `acceptFile`, `handleAnalyze`, `sendQuestion`,
`clearAnalysis`, `removeFile` plus the localStorage helpers `loadState`,
`saveState`, `clearState` and the persistence `useEffect`.

Modelling conventions:
  - JavaScript runtime values that flow through untyped positions (the
    error detail, the persisted JSON blob) are modelled by the inductive
    `JsVal` with JS truthiness.
  - String operations (`split`, `pop`, `toLowerCase`, `trim`,
    `startsWith`, `length`) are modelled by structurally recursive
    functions over `List Char` so that every concrete instance reduces in
    the kernel.  JS string length counts UTF-16 code units; we count
    characters, which agrees on all inputs exercised here.
  - JS numbers in the analysis summary are modelled as rationals; the
    `toFixed(2)` formatting is modelled by `toFixed2` (round half up at
    two decimals; binary floating point tie behaviour is not modelled, no
    claim depends on it).
  - The two remote calls (`analyzeFile`, `chatWithAI` from src/src/api.js)
    are external collaborators; a call is modelled by its outcome
    (success payload or failure payload), and an async handler is split
    into its synchronous start segment and its resolution segment.  The
    resolution of `sendQuestion` reads the `state` captured by the JS
    closure at invocation time; the model carries that snapshot in the
    ghost field `pendingChat`.
  - The operations the user can actually invoke are gated by the render
    conditions of the component (the upload panel renders only without a
    result, line 260; the analyze button is disabled while a file is
    missing or an analysis is in flight, line 298; the chat section
    renders only with a result, line 318; the chat inputs are disabled
    while a chat call is in flight, lines 553 and 570).  The event layer
    `applyUi` reproduces those gates.
-/

namespace SmartBill

/-- JsVal models the JavaScript runtime values reaching the untyped
positions of Analyzer.js: null/undefined, strings, numbers, arrays and
plain objects. -/
inductive JsVal where
  | vnull : JsVal
  | vstr : String → JsVal
  | vnum : Int → JsVal
  | varr : List JsVal → JsVal
  | vobj : List (String × JsVal) → JsVal

/-- truthy models JavaScript boolean coercion: null/undefined, the empty
string and 0 are falsy; every array and object is truthy. -/
def truthy : JsVal → Bool
  | .vnull => false
  | .vstr s => !(s = "")
  | .vnum n => !(n = 0)
  | .varr _ => true
  | .vobj _ => true

/-- jsOr models the JavaScript expression `a || b`. -/
def jsOr (a b : JsVal) : JsVal :=
  if truthy a then a else b

/-- isNull tests for the JS null/undefined value. -/
def JsVal.isNull : JsVal → Bool
  | .vnull => true
  | _ => false

/-- lookupField finds the first binding of a key in an object literal. -/
def lookupField : List (String × JsVal) → String → JsVal
  | [], _ => .vnull
  | (k', v) :: rest, k => if k' = k then v else lookupField rest k

/-- getField models JS property access `v?.k`: `undefined` (here vnull) on
non-objects and on missing keys. -/
def getField : JsVal → String → JsVal
  | .vobj fs, k => lookupField fs k
  | _, _ => .vnull

/-- splitDot models `String.prototype.split` with separator "." on the
character list of a string; the result is always non-empty. -/
def splitDot : List Char → List (List Char)
  | [] => [[]]
  | c :: rest =>
    match splitDot rest with
    | [] => [[]]
    | g :: gs => if c = '.' then [] :: g :: gs else (c :: g) :: gs

/-- lcChar models `toLowerCase` on one ASCII character (the extensions and
the "error" test compared in Analyzer.js are ASCII). -/
def lcChar (c : Char) : Char :=
  if 65 ≤ c.toNat ∧ c.toNat ≤ 90 then Char.ofNat (c.toNat + 32) else c

/-- lcList models `String.prototype.toLowerCase` characterwise. -/
def lcList (l : List Char) : List Char := l.map lcChar

/-- jsExt models line 119 of Analyzer.js:
`f.name.split('.').pop().toLowerCase()`.  Note that for a name containing
no dot, `split` yields the whole name as its only element, so `pop`
returns the whole name. -/
def jsExt (name : String) : List Char :=
  lcList ((splitDot name.data).getLast?.getD [])

/-- isWsp recognises the common whitespace characters removed by
`String.prototype.trim`. -/
def isWsp (c : Char) : Bool := c = ' ' || c = '\t' || c = '\n' || c = '\r'

/-- trimChars models `String.prototype.trim` on a character list. -/
def trimChars (l : List Char) : List Char :=
  ((l.dropWhile isWsp).reverse.dropWhile isWsp).reverse

/-- jsTrim models `String.prototype.trim`. -/
def jsTrim (s : String) : String := ⟨trimChars s.data⟩

/-- isPrefixChars tests whether the first list is an initial segment of
the second, modelling `String.prototype.startsWith`. -/
def isPrefixChars : List Char → List Char → Bool
  | [], _ => true
  | _ :: _, [] => false
  | a :: as, b :: bs => a = b && isPrefixChars as bs

/-- digitChar renders one decimal digit. -/
def digitChar (n : Nat) : Char := Char.ofNat (48 + n)

/-- natDigitsAux renders a natural number in decimal with explicit fuel so
that every concrete instance reduces structurally. -/
def natDigitsAux : Nat → Nat → List Char
  | 0, _ => []
  | fuel + 1, n =>
    if n < 10 then [digitChar n]
    else natDigitsAux fuel (n / 10) ++ [digitChar (n % 10)]

/-- natRepr renders a natural number in decimal, modelling JS template
interpolation of a non-negative integer. -/
def natRepr (n : Nat) : String := ⟨natDigitsAux (n + 1) n⟩

/-- toFixed2 models `Number.prototype.toFixed(2)`: decimal rendering with
exactly two fraction digits, rounding half away from zero. -/
def toFixed2 (q : Rat) : String :=
  let neg := q < 0
  let c : Int := ((if neg then -q else q) * 100 + 1 / 2).floor
  let ip := (c / 100).toNat
  let fp := (c % 100).toNat
  (if neg then "-" else "") ++ natRepr ip ++ "." ++
    (if fp < 10 then "0" else "") ++ natRepr fp

/-- Role of a chat message as stored by Analyzer.js: the literals "user"
and "ai". -/
inductive Role where
  | user : Role
  | ai : Role
deriving DecidableEq

/-- ChatMessage as stored in `state.messages`: a role and a text. -/
structure ChatMsg where
  role : Role
  text : String
deriving DecidableEq

/-- FileRef models the accepted part of a browser File object: Analyzer.js
reads only its `name`. -/
structure FileRef where
  name : String
deriving DecidableEq

/-- CatStats models one per-category statistics object of the analysis
summary (`summary.residential`, `summary.commercial`); every field may be
absent. -/
structure CatStats where
  count : Option Nat := none
  mean : Option Rat := none
  median : Option Rat := none
  min : Option Rat := none
  max : Option Rat := none
deriving DecidableEq

/-- Summary models the `summary` object of the Analysis Service response,
restricted to the fields Analyzer.js reads in `handleAnalyze`. -/
structure Summary where
  total_records : Option Nat := none
  residential : Option CatStats := none
  commercial : Option CatStats := none
  anomalies_count : Option Nat := none
deriving DecidableEq

/-- AnomalyRecord models one flagged record of the Analysis Service
response (read only by the presentation layer). -/
structure AnomalyRecord where
  house_id : String := ""
  address : Option String := none
  month : String := ""
  bill_amount : Option Rat := none
  units_consumed : Option Rat := none
  severity : String := ""
  reason : String := ""
deriving DecidableEq

/-- AnalysisData models the success payload `apiRes.data` of the Analysis
Service as consumed by `handleAnalyze` (fields `analysis`, `summary`,
`filename`; `timestamp` and `anomalies` are read only by the render). -/
structure AnalysisData where
  filename : String
  timestamp : Option String := none
  analysis : Option String := none
  summary : Option Summary := none
  anomalies : List AnomalyRecord := []
deriving DecidableEq

/-- AnalyzerState mirrors the React state record of the Analyzer component
(lines 76-91).  `pendingChat` is a ghost field carrying the message list
and question text captured by the `sendQuestion` closure while its chat
call is in flight; it is `some` exactly when `chatLoading` is true in any
run of the real component. -/
structure AnalyzerState where
  file : Option FileRef
  areaName : String
  fileName : Option String
  dragging : Bool
  analyzing : Bool
  result : Option AnalysisData
  error : JsVal
  messages : List ChatMsg
  question : String
  chatLoading : Bool
  showMonthly : Bool
  pendingChat : Option (List ChatMsg × String)

/-- Phase is the abstract phase of the specification state machine. -/
inductive Phase where
  | idle : Phase
  | validating : Phase
  | analyzing : Phase
  | ready : Phase
  | errored : Phase
deriving DecidableEq

/-- phase maps the concrete component state to the specification phase:
the component has no phase variable, so `analyzing` is the in-flight flag,
`errored` is a pending error banner, `ready` is a loaded result, and
`idle` is everything else. -/
def phase (s : AnalyzerState) : Phase :=
  if s.analyzing then .analyzing
  else if s.error.isNull = false then .errored
  else if s.result.isSome then .ready
  else .idle

/-- allowedExts is the extension whitelist of line 120. -/
def allowedExts : List (List Char) := ["xlsx".data, "xls".data, "csv".data]

/-- rejectText is the validation error of line 121. -/
def rejectText : String := "Only .xlsx, .xls, or .csv files are allowed."

/-- acceptFile models lines 117-125: a missing file is ignored; an
extension outside the whitelist only sets the error banner; otherwise the
file is stored and the error cleared. -/
def acceptFile (f : Option FileRef) (s : AnalyzerState) : AnalyzerState :=
  match f with
  | none => s
  | some f =>
    let ext := jsExt f.name
    if ¬ ext ∈ allowedExts then
      { s with error := .vstr rejectText }
    else
      { s with file := some f, fileName := some f.name, error := .vnull }

/-- removeFileOp models lines 133-137: clears the selected file only. -/
def removeFileOp (s : AnalyzerState) : AnalyzerState :=
  { s with file := none, fileName := none }

/-- clearAnalysis models lines 139-150 without the storage side effect
(handled at the event layer): clears result, messages, error, file,
fileName and areaName. -/
def clearAnalysis (s : AnalyzerState) : AnalyzerState :=
  { s with result := none, messages := [], error := .vnull,
           file := none, fileName := none, areaName := "" }

/-- handleAnalyzeStart models the synchronous head of `handleAnalyze`
(lines 153-155): the only in-function guard is a missing file; on start it
sets `analyzing`, clears error, result, messages and the monthly toggle.
The boolean reports whether an Analysis Service call was issued. -/
def handleAnalyzeStart (s : AnalyzerState) : AnalyzerState × Bool :=
  if s.file.isNone then (s, false)
  else ({ s with analyzing := true, error := .vnull, result := none,
                 messages := [], showMonthly := false }, true)

/-- clickAnalyze models the analyze operation as exposed to the user: the
upload panel (and with it the analyze button) renders only without a
result (line 260), the button is disabled while no file is selected or an
analysis is in flight (line 298), and a click then runs `handleAnalyze`
(lines 153-155). -/
def clickAnalyze (s : AnalyzerState) : AnalyzerState × Bool :=
  if s.result.isSome then (s, false)
  else if s.file.isNone || s.analyzing then (s, false)
  else handleAnalyzeStart s

/-- fallbackText models the synthesized template of lines 168-177, built
from the structured summary fields with the `|| 0` defaults of the
source. -/
def fallbackText (d : AnalysisData) : String :=
  let s := d.summary.getD {}
  let res := s.residential.getD {}
  let com := s.commercial.getD {}
  "Analysis Complete\n\n" ++
  "Analyzed " ++ d.filename ++ " — " ++ natRepr (s.total_records.getD 0) ++
    " total records.\n\n" ++
  "Residential: " ++ natRepr (res.count.getD 0) ++ " houses  |  Avg ₹" ++
    toFixed2 (res.mean.getD 0) ++ "  |  Median ₹" ++
    toFixed2 (res.median.getD 0) ++ "\n" ++
  "Commercial: " ++ natRepr (com.count.getD 0) ++ " properties  |  Avg ₹" ++
    toFixed2 (com.mean.getD 0) ++ "\n" ++
  "Anomalies: " ++ natRepr (s.anomalies_count.getD 0) ++ " detected\n\n" ++
  "Ask me anything about the data!"

/-- seedMessage models lines 161-179: the first assistant message is the
service narrative verbatim when it is non-empty, longer than 50
characters and does not start with "error" after lowercasing; otherwise
it is the synthesized template. -/
def seedMessage (d : AnalysisData) : ChatMsg :=
  let aiText := d.analysis.getD ""
  if aiText ≠ "" ∧ aiText.data.length > 50 ∧
      isPrefixChars "error".data (lcList aiText.data) = false then
    { role := .ai, text := aiText }
  else
    { role := .ai, text := fallbackText d }

/-- handleAnalyzeOk models the success resolution of `handleAnalyze`
(lines 158-181): stores the payload, seeds the transcript with exactly the
one seed message, clears the in-flight flag. -/
def handleAnalyzeOk (d : AnalysisData) (s : AnalyzerState) : AnalyzerState :=
  { s with result := some d, messages := [seedMessage d], analyzing := false }

/-- AnalyzeFailure models a rejected Analysis Service call: the response
body `err.response?.data` when a response exists (vnull when the failure
had no response, as in a network error) and the transport message
`err.message`. -/
structure AnalyzeFailure where
  responseData : JsVal
  message : String

/-- extractDetail models line 183:
`err.response?.data?.details || err.response?.data?.error || err.message`. -/
def extractDetail (e : AnalyzeFailure) : JsVal :=
  jsOr (getField e.responseData "details")
    (jsOr (getField e.responseData "error") (.vstr e.message))

/-- handleAnalyzeFail models the failure resolution of `handleAnalyze`
(lines 182-185): stores the extracted detail as the error and clears the
in-flight flag; the selected file is untouched. -/
def handleAnalyzeFail (e : AnalyzeFailure) (s : AnalyzerState) : AnalyzerState :=
  { s with error := extractDetail e, analyzing := false }

/-- effectiveText models line 190, `(q || state.question).trim()`: an
absent or empty argument falls back to the draft question field. -/
def effectiveText (q : Option String) (s : AnalyzerState) : String :=
  let raw := match q with
    | some t => if t ≠ "" then t else s.question
    | none => s.question
  jsTrim raw

/-- sendQuestionStart models the synchronous head of `sendQuestion`
(lines 189-197): rejected without any state change when the effective
text trims to empty, no result is loaded, or a chat call is in flight;
otherwise appends the user message optimistically, clears the draft and
sets the in-flight flag, capturing the closure snapshot.  The boolean
reports whether a Chat Service call was issued. -/
def sendQuestionStart (q : Option String) (s : AnalyzerState) :
    AnalyzerState × Bool :=
  let text := effectiveText q s
  if text = "" ∨ s.result.isNone = true ∨ s.chatLoading = true then (s, false)
  else
    ({ s with messages := s.messages ++ [{ role := .user, text := text }],
              question := "",
              chatLoading := true,
              pendingChat := some (s.messages, text) }, true)

/-- chatFailText is the fixed fallback of line 207. -/
def chatFailText : String := "Failed to get a response. Please try again."

/-- sendQuestionResolve models the resolution of `sendQuestion` (lines
199-210): the messages written are the closure snapshot plus the user
message plus one assistant message, the answer on success and the fixed
fallback on failure; the in-flight flag is cleared. -/
def sendQuestionResolve (answer : Option String) (s : AnalyzerState) :
    AnalyzerState :=
  match s.pendingChat with
  | none => s
  | some (snap, text) =>
    { s with messages := snap ++ [{ role := .user, text := text },
                                  { role := .ai, text := answer.getD chatFailText }],
             chatLoading := false,
             pendingChat := none }

/-- askRun is one complete `sendQuestion` call: the synchronous start and,
when a chat call was issued, its resolution with the given outcome
(`some answer` on success, `none` on failure). -/
def askRun (q : Option String) (answer : Option String) (s : AnalyzerState) :
    AnalyzerState :=
  let r := sendQuestionStart q s
  if r.snd then sendQuestionResolve answer r.fst else r.fst

/-- Snapshot models the persisted JSON blob written by the effect of lines
102-111: `areaName`, `fileName`, `result`, `messages`. -/
structure Snapshot where
  areaName : String
  fileName : Option String
  result : Option AnalysisData
  messages : List ChatMsg

/-- persistAfter models the persistence effect of lines 102-111 run after
a state change: when a result is present the current snapshot is written
(overwriting the stored value), otherwise storage is untouched. -/
def persistAfter (s : AnalyzerState) (st : Option Snapshot) : Option Snapshot :=
  if s.result.isSome then
    some { areaName := s.areaName, fileName := s.fileName,
           result := s.result, messages := s.messages }
  else st

/-- initState is the component state built by the initializer of lines
76-91 from already-decoded restored fields (the untyped restoration path
is modelled separately by `restoredInit`). -/
def initState (r : Option AnalysisData) (m : List ChatMsg) (a : String)
    (fn : Option String) : AnalyzerState :=
  { file := none, areaName := a, fileName := fn, dragging := false,
    analyzing := false, result := r, error := .vnull, messages := m,
    question := "", chatLoading := false, showMonthly := false,
    pendingChat := none }

/-- restoreTyped rebuilds the startup state from a typed snapshot; on
typed snapshots this agrees with the `saved?.field || default` reads of
lines 76-91, because a stored result object and a stored array are truthy
and the defaults coincide. -/
def restoreTyped : Option Snapshot → AnalyzerState
  | some snap => initState snap.result snap.messages snap.areaName snap.fileName
  | none => initState none [] "" none

/-- Ev enumerates the user actions and call resolutions that can touch the
component state, each gated below by its render condition. -/
inductive Ev where
  | selectFile (f : Option FileRef) : Ev
  | removeSel : Ev
  | analyzeStart : Ev
  | analyzeOk (d : AnalysisData) : Ev
  | analyzeFail (e : AnalyzeFailure) : Ev
  | chatStart (q : Option String) : Ev
  | chatOk (ans : String) : Ev
  | chatFail : Ev
  | clearAll : Ev
  | setQuestion (t : String) : Ev
  | setAreaName (t : String) : Ev
  | toggleMonthly : Ev
  | setDragging (b : Bool) : Ev

/-- applyUi applies one event to the component state under the render
gates of the component: the upload panel, area input and dropzone exist
only without a result (line 260); the remove button additionally needs a
selected file (line 282); the chat section and the New Analysis button
exist only with a result (lines 242 and 318); the question textarea is
disabled while a chat call is in flight (line 570); a call resolution
fires only while the corresponding call is outstanding. -/
def applyUi : Ev → AnalyzerState → AnalyzerState
  | .selectFile f, s => if s.result.isSome then s else acceptFile f s
  | .removeSel, s =>
    if s.result.isSome ∨ s.file.isNone = true then s else removeFileOp s
  | .analyzeStart, s => (clickAnalyze s).fst
  | .analyzeOk d, s => if s.analyzing then handleAnalyzeOk d s else s
  | .analyzeFail e, s => if s.analyzing then handleAnalyzeFail e s else s
  | .chatStart q, s => if s.result.isSome then (sendQuestionStart q s).fst else s
  | .chatOk ans, s => sendQuestionResolve (some ans) s
  | .chatFail, s => sendQuestionResolve none s
  | .clearAll, s => if s.result.isSome then clearAnalysis s else s
  | .setQuestion t, s =>
    if s.result.isSome ∧ s.chatLoading = false then { s with question := t } else s
  | .setAreaName t, s => if s.result.isSome then s else { s with areaName := t }
  | .toggleMonthly, s =>
    if s.result.isSome then { s with showMonthly := !s.showMonthly } else s
  | .setDragging b, s => if s.result.isSome then s else { s with dragging := b }

/-- applyEv applies one event to the pair of component state and persisted
storage: `clearAll` additionally removes the stored value (`clearState`,
lines 63-69, invoked at line 148), every other event is followed by the
persistence effect of lines 102-111. -/
def applyEv (ev : Ev) (c : AnalyzerState × Option Snapshot) :
    AnalyzerState × Option Snapshot :=
  match ev with
  | .clearAll => if c.1.result.isSome then (clearAnalysis c.1, none) else c
  | _ =>
    let s' := applyUi ev c.1
    (s', persistAfter s' c.2)

/-- Reachable states of the machine: any startup state (the restored
fields are universally quantified, which covers every decodable stored
value, and the mount-time persistence effect runs once), closed under
events. -/
inductive Reachable : AnalyzerState × Option Snapshot → Prop where
  | init (r : Option AnalysisData) (m : List ChatMsg) (a : String)
      (fn : Option String) (st : Option Snapshot) :
      Reachable (initState r m a fn, persistAfter (initState r m a fn) st)
  | step (ev : Ev) (c : AnalyzerState × Option Snapshot) :
      Reachable c → Reachable (applyEv ev c)

/-- jsLoadState models `loadState` (lines 53-61): a missing key yields
null, an unparseable stored string is caught and yields null, a parsed
value is returned.  The outer Option is presence of the key, the inner
Option is parse success. -/
def jsLoadState : Option (Option JsVal) → Option JsVal
  | none => none
  | some none => none
  | some (some v) => some v

/-- RestoredInit is the projection of the initializer of lines 76-91 onto
the four restored fields, kept at the JS value level so that malformed
stored blobs are representable. -/
structure RestoredInit where
  areaName : JsVal
  fileName : JsVal
  result : JsVal
  messages : JsVal

/-- restoredInit models lines 76-91 on the raw stored value: each field is
read independently with its own `saved?.field || default`. -/
def restoredInit (stored : Option (Option JsVal)) : RestoredInit :=
  let sv := (jsLoadState stored).getD .vnull
  { areaName := jsOr (getField sv "areaName") (.vstr ""),
    fileName := jsOr (getField sv "fileName") .vnull,
    result := jsOr (getField sv "result") .vnull,
    messages := jsOr (getField sv "messages") (.varr []) }

/-- initPhase maps a freshly restored state to its phase: at startup the
in-flight flag is false and the error is null, so the phase is ready
exactly when the restored result is truthy, and idle otherwise. -/
def initPhase (r : RestoredInit) : Phase :=
  if truthy r.result then .ready else .idle

/-- JsVal.isStr discriminates string values. -/
def JsVal.isStr : JsVal → Bool
  | .vstr _ => true
  | _ => false

/-- jsArrLen returns the length of an array value, 0 on non-arrays. -/
def jsArrLen : JsVal → Nat
  | .varr l => l.length
  | _ => 0

/-- chatPairs is the transcript segment contributed by a list of resolved
question/answer exchanges. -/
def chatPairs : List (String × String) → List ChatMsg
  | [] => []
  | (q, a) :: rest =>
    { role := .user, text := jsTrim q } :: { role := .ai, text := a } :: chatPairs rest

/-- processQuestions runs a list of questions sequentially, each one a
complete accepted-or-rejected `sendQuestion` call resolving successfully
with the paired answer. -/
def processQuestions : List (String × String) → AnalyzerState → AnalyzerState
  | [], s => s
  | (q, a) :: rest, s => processQuestions rest (askRun (some q) (some a) s)

/-- alternatesUA checks that a transcript is an alternation of user and
assistant messages starting with a user message. -/
def alternatesUA : List ChatMsg → Bool
  | [] => true
  | ⟨.user, _⟩ :: ⟨.ai, _⟩ :: rest => alternatesUA rest
  | _ => false

/-! Frame lemmas for the session operations. -/

theorem truthy_not_null {a : JsVal} (h : truthy a = true) : a.isNull = false := by
  cases a <;> simp [JsVal.isNull] <;> simp [truthy] at h

theorem truthy_jsOr_null (a : JsVal) : truthy (jsOr a .vnull) = truthy a := by
  unfold jsOr
  split
  · rfl
  · simp_all [truthy]

theorem extractDetail_not_null (e : AnalyzeFailure) :
    (extractDetail e).isNull = false := by
  unfold extractDetail jsOr
  split
  · exact truthy_not_null (by assumption)
  · split
    · exact truthy_not_null (by assumption)
    · rfl

theorem acceptFile_result (f : Option FileRef) (s : AnalyzerState) :
    (acceptFile f s).result = s.result := by
  cases f with
  | none => rfl
  | some f => simp only [acceptFile]; split <;> rfl

theorem acceptFile_analyzing (f : Option FileRef) (s : AnalyzerState) :
    (acceptFile f s).analyzing = s.analyzing := by
  cases f with
  | none => rfl
  | some f => simp only [acceptFile]; split <;> rfl

theorem sendQuestionStart_result (q : Option String) (s : AnalyzerState) :
    (sendQuestionStart q s).fst.result = s.result := by
  simp only [sendQuestionStart]; split <;> rfl

theorem sendQuestionStart_analyzing (q : Option String) (s : AnalyzerState) :
    (sendQuestionStart q s).fst.analyzing = s.analyzing := by
  simp only [sendQuestionStart]; split <;> rfl

theorem sendQuestionResolve_result (a : Option String) (s : AnalyzerState) :
    (sendQuestionResolve a s).result = s.result := by
  unfold sendQuestionResolve
  rcases h : s.pendingChat with _ | ⟨snap, text⟩
  · rfl
  · rfl

theorem sendQuestionResolve_analyzing (a : Option String) (s : AnalyzerState) :
    (sendQuestionResolve a s).analyzing = s.analyzing := by
  unfold sendQuestionResolve
  rcases h : s.pendingChat with _ | ⟨snap, text⟩
  · rfl
  · rfl

theorem applyEv_fst (ev : Ev) (c : AnalyzerState × Option Snapshot) :
    (applyEv ev c).1 = applyUi ev c.1 := by
  cases ev <;> simp only [applyEv, applyUi]
  split <;> rfl

/-- applyUi_preserves shows that the conditional invariant (an in-flight
analysis has no loaded result) is preserved by every gated event. -/
theorem applyUi_preserves (ev : Ev) (s : AnalyzerState)
    (hs : s.analyzing = true → s.result = none) :
    (applyUi ev s).analyzing = true → (applyUi ev s).result = none := by
  cases ev with
  | selectFile f =>
    simp only [applyUi]
    split
    · exact hs
    · rw [acceptFile_analyzing, acceptFile_result]; exact hs
  | removeSel =>
    simp only [applyUi]
    split
    · exact hs
    · exact hs
  | analyzeStart =>
    simp only [applyUi, clickAnalyze]
    split
    · exact hs
    · split
      · exact hs
      · unfold handleAnalyzeStart
        split
        · exact hs
        · intro _; rfl
  | analyzeOk d =>
    simp only [applyUi]
    split
    · simp [handleAnalyzeOk]
    · exact hs
  | analyzeFail e =>
    simp only [applyUi]
    split
    · simp [handleAnalyzeFail]
    · exact hs
  | chatStart q =>
    simp only [applyUi]
    split
    · rw [sendQuestionStart_analyzing, sendQuestionStart_result]; exact hs
    · exact hs
  | chatOk ans =>
    simp only [applyUi]
    rw [sendQuestionResolve_analyzing, sendQuestionResolve_result]; exact hs
  | chatFail =>
    simp only [applyUi]
    rw [sendQuestionResolve_analyzing, sendQuestionResolve_result]; exact hs
  | clearAll =>
    simp only [applyUi]
    split
    · intro _; rfl
    · exact hs
  | setQuestion t =>
    simp only [applyUi]
    split
    · exact hs
    · exact hs
  | setAreaName t =>
    simp only [applyUi]
    split
    · exact hs
    · exact hs
  | toggleMonthly =>
    simp only [applyUi]
    split
    · exact hs
    · exact hs
  | setDragging b =>
    simp only [applyUi]
    split
    · exact hs
    · exact hs

/-- reachable_inv is the key invariant: in every reachable configuration,
an in-flight analysis implies no loaded result. -/
theorem reachable_inv (c : AnalyzerState × Option Snapshot) (h : Reachable c) :
    c.1.analyzing = true → c.1.result = none := by
  induction h with
  | init r m a fn st => intro hA; simp [initState] at hA
  | step ev c hc ih =>
    rw [applyEv_fst]
    exact applyUi_preserves ev c.1 ih

/-- effectiveText_of_ne reduces the effective question text to the
trimmed argument when a non-empty argument string is supplied. -/
theorem effectiveText_of_ne (q : String) (s : AnalyzerState) (hq : q ≠ "") :
    effectiveText (some q) s = jsTrim q := by
  simp [effectiveText, hq]

/-- sendQuestionStart_noop characterizes a rejected chat start: no state
change and no call issued. -/
theorem sendQuestionStart_noop (q : Option String) (s : AnalyzerState)
    (h : effectiveText q s = "" ∨ s.result.isNone = true ∨ s.chatLoading = true) :
    sendQuestionStart q s = (s, false) := by
  simp only [sendQuestionStart]
  rw [if_pos h]

/-- askRun_noop: a rejected chat call leaves the whole state unchanged. -/
theorem askRun_noop (q a : Option String) (s : AnalyzerState)
    (h : effectiveText q s = "" ∨ s.result.isNone = true ∨ s.chatLoading = true) :
    askRun q a s = s := by
  unfold askRun
  rw [sendQuestionStart_noop q s h]
  rfl

/-- sendQuestionStart_go characterizes an accepted chat start. -/
theorem sendQuestionStart_go (q : Option String) (s : AnalyzerState)
    (ht : effectiveText q s ≠ "")
    (hres : s.result.isSome = true) (hcl : s.chatLoading = false) :
    sendQuestionStart q s =
      ({ s with messages := s.messages ++ [{ role := .user, text := effectiveText q s }],
                question := "",
                chatLoading := true,
                pendingChat := some (s.messages, effectiveText q s) }, true) := by
  have hnone : s.result.isNone = false := by
    rcases hx : s.result with _ | r
    · rw [hx] at hres; simp at hres
    · rfl
  simp only [sendQuestionStart]
  rw [if_neg]
  simp [ht, hnone, hcl]

/-- askRun_go characterizes one complete accepted chat call with an
arbitrary outcome: the user message and one assistant message (the answer
on success, the fixed fallback on failure) are appended to the prior
transcript. -/
theorem askRun_go (q ans : Option String) (s : AnalyzerState)
    (ht : effectiveText q s ≠ "")
    (hres : s.result.isSome = true) (hcl : s.chatLoading = false) :
    askRun q ans s =
      { s with messages := s.messages ++
          [{ role := .user, text := effectiveText q s },
           { role := .ai, text := ans.getD chatFailText }],
               question := "",
               chatLoading := false,
               pendingChat := none } := by
  unfold askRun
  rw [sendQuestionStart_go q s ht hres hcl]
  simp [sendQuestionResolve]

/-- afterAsk is the state after one accepted chat exchange resolved with
the given answer. -/
def afterAsk (q a : String) (s : AnalyzerState) : AnalyzerState :=
  { s with messages := s.messages ++ [{ role := .user, text := jsTrim q },
                                      { role := .ai, text := a }],
           question := "",
           chatLoading := false,
           pendingChat := none }

/-- askRun_accepted characterizes one complete accepted chat exchange
resolving successfully: the user message and the answer are appended to
the prior transcript, everything else returns to the quiescent chat
state. -/
theorem askRun_accepted (q a : String) (s : AnalyzerState)
    (hq : q ≠ "") (ht : jsTrim q ≠ "")
    (hres : s.result.isSome = true) (hcl : s.chatLoading = false) :
    askRun (some q) (some a) s = afterAsk q a s := by
  have he : effectiveText (some q) s = jsTrim q := effectiveText_of_ne q s hq
  rw [askRun_go (some q) (some a) s (by rw [he]; exact ht) hres hcl, he]
  rfl

theorem chatPairs_length (l : List (String × String)) :
    (chatPairs l).length = 2 * l.length := by
  induction l with
  | nil => rfl
  | cons p rest ih =>
    obtain ⟨q, a⟩ := p
    simp [chatPairs, ih]
    omega

theorem alternatesUA_chatPairs (l : List (String × String)) :
    alternatesUA (chatPairs l) = true := by
  induction l with
  | nil => rfl
  | cons p rest ih =>
    obtain ⟨q, a⟩ := p
    simpa [chatPairs, alternatesUA] using ih

/-- processQuestions_messages: a sequence of accepted questions, each
resolving before the next is asked, appends exactly its user/answer pairs
to the transcript. -/
theorem processQuestions_messages (qas : List (String × String))
    (s : AnalyzerState)
    (hres : s.result.isSome = true) (hcl : s.chatLoading = false)
    (hall : ∀ p ∈ qas, p.1 ≠ ("" : String) ∧ jsTrim p.1 ≠ "") :
    (processQuestions qas s).messages = s.messages ++ chatPairs qas := by
  induction qas generalizing s with
  | nil => simp [processQuestions, chatPairs]
  | cons p rest ih =>
    obtain ⟨q, a⟩ := p
    have h1 := hall (q, a) (List.mem_cons_self (q, a) rest)
    have hrest : ∀ p ∈ rest, p.1 ≠ ("" : String) ∧ jsTrim p.1 ≠ "" :=
      fun p hp => hall p (List.mem_cons_of_mem _ hp)
    rw [processQuestions, askRun_accepted q a s h1.1 h1.2 hres hcl]
    rw [ih (afterAsk q a s) hres rfl hrest]
    simp [afterAsk, chatPairs]

/-- clickAnalyze_start: with a candidate held, no result loaded and no
analysis in flight, the analyze click starts an analysis call. -/
theorem clickAnalyze_start (s : AnalyzerState) (f : FileRef)
    (hf : s.file = some f) (ha : s.analyzing = false) (hr : s.result = none) :
    clickAnalyze s =
      ({ s with analyzing := true, error := .vnull, result := none,
                messages := [], showMonthly := false }, true) := by
  unfold clickAnalyze
  rw [if_neg, if_neg]
  · unfold handleAnalyzeStart
    rw [if_neg]
    simp [hf]
  · simp [hf, ha]
  · simp [hr]

/-! Claim theorems. -/

/-- C1: runAnalysis is a no-op when no candidate file is held, and at most
one analysis call is ever outstanding: with a candidate held, no result
loaded and no analysis in flight, the first invocation issues exactly one
Analysis Service call and moves the phase to analyzing, and a second
invocation in rapid succession is rejected synchronously (same state, no
call issued) while the phase is analyzing. -/
theorem runAnalysis_single_flight (s : AnalyzerState) :
    (s.file = none → clickAnalyze s = (s, false)) ∧
    (∀ f : FileRef, s.file = some f → s.analyzing = false → s.result = none →
      (clickAnalyze s).snd = true ∧
      phase (clickAnalyze s).fst = .analyzing ∧
      clickAnalyze (clickAnalyze s).fst = ((clickAnalyze s).fst, false)) := by
  constructor
  · intro h
    unfold clickAnalyze
    split
    · rfl
    · rw [if_pos]
      simp [h, Option.isNone]
  · intro f hf ha hr
    have hred : clickAnalyze s = handleAnalyzeStart s := by
      unfold clickAnalyze
      rw [if_neg, if_neg]
      · simp [hf, ha]
      · simp [hr]
    have hstart : handleAnalyzeStart s =
        ({ s with analyzing := true, error := .vnull, result := none,
                  messages := [], showMonthly := false }, true) := by
      unfold handleAnalyzeStart
      rw [if_neg]
      simp [hf]
    rw [hred, hstart]
    refine ⟨rfl, rfl, ?_⟩
    unfold clickAnalyze
    rw [if_neg, if_pos]
    · simp [Option.isNone]
    · simp

/-- runAnalysis_single_flight_witness evaluates the claim at a concrete
session: an idle state holding the candidate file a.csv. -/
theorem runAnalysis_single_flight_witness :
    (acceptFile (some ⟨"a.csv"⟩) (initState none [] "" none)).file = some ⟨"a.csv"⟩ ∧
    (clickAnalyze (acceptFile (some ⟨"a.csv"⟩) (initState none [] "" none))).snd = true ∧
    clickAnalyze (clickAnalyze (acceptFile (some ⟨"a.csv"⟩) (initState none [] "" none))).fst
      = ((clickAnalyze (acceptFile (some ⟨"a.csv"⟩) (initState none [] "" none))).fst, false) := by
  have h := (runAnalysis_single_flight
    (acceptFile (some ⟨"a.csv"⟩) (initState none [] "" none))).2 ⟨"a.csv"⟩ rfl rfl rfl
  exact ⟨rfl, h.1, h.2.2⟩

/-- specExtAdmits formalises the acceptance rule exactly as the claim
words it: the text after the final dot of the name, compared
case-insensitively, must be one of xlsx, xls, csv, and a name containing
no dot (no extension) is always rejected. -/
def specExtAdmits (name : String) : Bool :=
  if name.data.contains '.' then
    decide (lcList ((splitDot name.data).getLast?.getD []) ∈ allowedExts)
  else false

/-- C2 counterexample: a file whose name is exactly "csv", which has no
extension at all, is admitted by the code (split on "." of a dotless name
yields the whole name, so pop returns "csv"), while the claim demands
that every name without an extension be rejected. -/
theorem accept_noext_counterexample :
    (acceptFile (some ⟨"csv"⟩) (initState none [] "" none)).file = some ⟨"csv"⟩ ∧
    (acceptFile (some ⟨"csv"⟩) (initState none [] "" none)).error = .vnull ∧
    specExtAdmits "csv" = false := by
  exact ⟨rfl, rfl, rfl⟩

/-- C2 (amended): accept admits a file exactly when the last
dot-separated component of its name — the whole name when it contains no
dot — lowercased, is one of xlsx, xls, csv; every other name is rejected
with the unsupported-extension error, and on rejection the held candidate
file and its recorded name are unchanged. -/
theorem accept_extension_rule (s : AnalyzerState) (f : FileRef) :
    acceptFile none s = s ∧
    (jsExt f.name ∈ allowedExts →
      acceptFile (some f) s =
        { s with file := some f, fileName := some f.name, error := .vnull }) ∧
    (¬ jsExt f.name ∈ allowedExts →
      acceptFile (some f) s = { s with error := .vstr rejectText } ∧
      (acceptFile (some f) s).file = s.file ∧
      (acceptFile (some f) s).fileName = s.fileName) := by
  refine ⟨rfl, ?_, ?_⟩
  · intro hmem
    simp only [acceptFile]
    rw [if_neg (not_not_intro hmem)]
  · intro hmem
    have h : acceptFile (some f) s = { s with error := .vstr rejectText } := by
      simp only [acceptFile]
      rw [if_pos hmem]
    exact ⟨h, by rw [h], by rw [h]⟩

/-- accept_extension_rule_witness evaluates both directions at concrete
names: Bills.XLSX is admitted case-insensitively, notes.txt is rejected
and leaves the candidate unchanged. -/
theorem accept_extension_rule_witness :
    jsExt "Bills.XLSX" ∈ allowedExts ∧
    (acceptFile (some ⟨"Bills.XLSX"⟩) (initState none [] "" none)).file = some ⟨"Bills.XLSX"⟩ ∧
    ¬ jsExt "notes.txt" ∈ allowedExts ∧
    (acceptFile (some ⟨"notes.txt"⟩) (initState none [] "" none)).file = none := by
  have h1 := (accept_extension_rule (initState none [] "" none) ⟨"Bills.XLSX"⟩).2.1 (by decide)
  have h2 := (accept_extension_rule (initState none [] "" none) ⟨"notes.txt"⟩).2.2 (by decide)
  refine ⟨by decide, by rw [h1], by decide, ?_⟩
  rw [h2.2.1]
  rfl

/-- C3: after a successful runAnalysis the phase is ready, a result is
loaded, and the transcript contains exactly one assistant message — the
service narrative verbatim when it is non-empty, longer than the 50
character threshold, and does not start with "error" case-insensitively,
and otherwise the fixed-template summary synthesized from the structured
summary fields, so the transcript is never seeded empty. -/
theorem analyze_success_seeds_transcript (s : AnalyzerState) (f : FileRef)
    (d : AnalysisData) :
    s.file = some f → s.analyzing = false → s.result = none →
    (handleAnalyzeOk d (clickAnalyze s).fst).result = some d ∧
    phase (handleAnalyzeOk d (clickAnalyze s).fst) = .ready ∧
    (handleAnalyzeOk d (clickAnalyze s).fst).messages = [seedMessage d] ∧
    (seedMessage d).role = .ai ∧
    (∀ t, d.analysis = some t → t ≠ "" → t.data.length > 50 →
      isPrefixChars "error".data (lcList t.data) = false →
      (seedMessage d).text = t) ∧
    (¬ (d.analysis.getD "" ≠ "" ∧ (d.analysis.getD "").data.length > 50 ∧
        isPrefixChars "error".data (lcList (d.analysis.getD "").data) = false) →
      (seedMessage d).text = fallbackText d) := by
  intro hf ha hr
  have hred : clickAnalyze s =
      ({ s with analyzing := true, error := .vnull, result := none,
                messages := [], showMonthly := false }, true) := by
    unfold clickAnalyze
    rw [if_neg, if_neg]
    · unfold handleAnalyzeStart
      rw [if_neg]
      simp [hf]
    · simp [hf, ha]
    · simp [hr]
  rw [hred]
  refine ⟨rfl, rfl, rfl, ?_, ?_, ?_⟩
  · simp only [seedMessage]
    split <;> rfl
  · intro t hsome hne hlen herr
    simp only [seedMessage, hsome, Option.getD_some]
    rw [if_pos ⟨hne, hlen, herr⟩]
  · intro hcond
    simp only [seedMessage]
    rw [if_neg hcond]

/-- witnessNarrative is a concrete 86-character lowercase narrative for
witness evaluation. -/
def witnessNarrative : String :=
  "the residential category shows a consistent pattern of usage across all twelve months"

/-- witnessData is a concrete Analysis Service payload carrying that
narrative. -/
def witnessData : AnalysisData :=
  { filename := "bills.csv", analysis := some witnessNarrative }

/-- witnessReadyBase is the concrete session obtained by accepting
bills.csv into a fresh session. -/
def witnessReadyBase : AnalyzerState :=
  acceptFile (some ⟨"bills.csv"⟩) (initState none [] "" none)

/-- analyze_success_seeds_transcript_witness evaluates the claim at a
concrete session and a concrete service payload carrying a long narrative
that is used verbatim. -/
theorem analyze_success_seeds_transcript_witness :
    (handleAnalyzeOk witnessData (clickAnalyze witnessReadyBase).fst).messages
      = [{ role := .ai, text := witnessNarrative }] ∧
    phase (handleAnalyzeOk witnessData (clickAnalyze witnessReadyBase).fst) = .ready := by
  have h := analyze_success_seeds_transcript witnessReadyBase ⟨"bills.csv"⟩
    witnessData rfl rfl rfl
  have hrole : (seedMessage witnessData).role = .ai := h.2.2.2.1
  have hverb : (seedMessage witnessData).text = witnessNarrative :=
    h.2.2.2.2.1 witnessNarrative rfl (by decide) (by decide) (by decide)
  have hmsg : seedMessage witnessData = { role := .ai, text := witnessNarrative } := by
    cases hsm : seedMessage witnessData with
    | mk r t =>
      rw [hsm] at hrole hverb
      exact congrArg₂ ChatMsg.mk hrole hverb
  refine ⟨?_, h.2.1⟩
  rw [h.2.2.1, hmsg]

/-- exampleAnalyzing is the concrete in-flight analysis session used by
the failure-path theorems. -/
def exampleAnalyzing : AnalyzerState := (clickAnalyze witnessReadyBase).fst

/-- corruptFailure is the failure of the C4 scenario: the service rejects
with the body containing a nested error object. -/
def corruptFailure : AnalyzeFailure :=
  { responseData := .vobj [("error", .vobj [("details", .vstr "corrupt file")])],
    message := "Request failed with status code 400" }

/-- C4 counterexample: for a rejection carrying the payload with a nested
error.details object, the code reads the top-level fields details and
error of the body, so it stores the whole nested object — not the string
"corrupt file" (indeed not a string at all) — as the error, while the
claim demands lastError == "corrupt file".  The phase does become errored
and the candidate is preserved. -/
theorem error_detail_counterexample :
    (handleAnalyzeFail corruptFailure exampleAnalyzing).error
      = .vobj [("details", .vstr "corrupt file")] ∧
    (handleAnalyzeFail corruptFailure exampleAnalyzing).error.isStr = false ∧
    phase (handleAnalyzeFail corruptFailure exampleAnalyzing) = .errored ∧
    (handleAnalyzeFail corruptFailure exampleAnalyzing).file = some ⟨"bills.csv"⟩ := by
  exact ⟨rfl, rfl, rfl, rfl⟩

/-- C4 (amended): on analysis failure the phase becomes errored and the
candidate is preserved, and lastError holds the value extracted from the
failure body at the top-level field details, then the top-level field
error, with a final fallback to the transport message; in particular a
rejection whose body is the flat object with details "corrupt file"
yields lastError "corrupt file". -/
theorem error_extraction_rule (s : AnalyzerState) (f : FileRef)
    (e : AnalyzeFailure) :
    s.analyzing = true → s.result = none → s.file = some f →
    (handleAnalyzeFail e s).file = some f ∧
    phase (handleAnalyzeFail e s) = .errored ∧
    (truthy (getField e.responseData "details") = true →
      (handleAnalyzeFail e s).error = getField e.responseData "details") ∧
    (truthy (getField e.responseData "details") = false →
      truthy (getField e.responseData "error") = true →
      (handleAnalyzeFail e s).error = getField e.responseData "error") ∧
    (truthy (getField e.responseData "details") = false →
      truthy (getField e.responseData "error") = false →
      (handleAnalyzeFail e s).error = .vstr e.message) ∧
    (∀ m : String, m ≠ "" → e.responseData = .vobj [("details", .vstr m)] →
      (handleAnalyzeFail e s).error = .vstr m) := by
  intro ha hr hf
  refine ⟨by simp [handleAnalyzeFail, hf], ?_, ?_, ?_, ?_, ?_⟩
  · simp [phase, handleAnalyzeFail, extractDetail_not_null e, hr]
  · intro h1
    simp [handleAnalyzeFail, extractDetail, jsOr, h1]
  · intro h1 h2
    simp [handleAnalyzeFail, extractDetail, jsOr, h1, h2]
  · intro h1 h2
    simp [handleAnalyzeFail, extractDetail, jsOr, h1, h2]
  · intro m hm he
    have hmt : truthy (JsVal.vstr m) = true := by simp [truthy, hm]
    simp [handleAnalyzeFail, extractDetail, he, getField, lookupField, jsOr, hmt]

/-- error_extraction_rule_witness evaluates the amended rule at the
concrete in-flight session and a flat failure body. -/
theorem error_extraction_rule_witness :
    exampleAnalyzing.analyzing = true ∧
    (handleAnalyzeFail
      { responseData := .vobj [("details", .vstr "corrupt file")],
        message := "Network Error" } exampleAnalyzing).error = .vstr "corrupt file" ∧
    (handleAnalyzeFail
      { responseData := .vobj [("details", .vstr "corrupt file")],
        message := "Network Error" } exampleAnalyzing).file = some ⟨"bills.csv"⟩ := by
  have h := error_extraction_rule exampleAnalyzing ⟨"bills.csv"⟩
    { responseData := .vobj [("details", .vstr "corrupt file")],
      message := "Network Error" } rfl rfl rfl
  exact ⟨rfl, h.2.2.2.2.2 "corrupt file" (by decide) rfl, h.1⟩

/-- C5: a chat call attempted while one is pending is rejected
synchronously with no state change and no service call, so at most one
chat call is outstanding; and a sequence of accepted questions, each
resolving before the next is asked, appends exactly its user/answer pairs
in order — so from an empty transcript, N questions yield exactly 2N
messages alternating user/assistant starting with user, the user message
of each question preceding its reply and every message of the next
question. -/
theorem chat_sequencing :
    (∀ (s : AnalyzerState) (q a : Option String), s.chatLoading = true →
      sendQuestionStart q s = (s, false) ∧ askRun q a s = s) ∧
    (∀ (s : AnalyzerState) (qas : List (String × String)),
      s.result.isSome = true → s.chatLoading = false →
      (∀ p ∈ qas, p.1 ≠ ("" : String) ∧ jsTrim p.1 ≠ "") →
      (processQuestions qas s).messages = s.messages ++ chatPairs qas ∧
      (s.messages = [] →
        (processQuestions qas s).messages.length = 2 * qas.length ∧
        alternatesUA (processQuestions qas s).messages = true)) := by
  constructor
  · intro s q a hcl
    exact ⟨sendQuestionStart_noop q s (Or.inr (Or.inr hcl)),
           askRun_noop q a s (Or.inr (Or.inr hcl))⟩
  · intro s qas hres hcl hall
    have hmain := processQuestions_messages qas s hres hcl hall
    refine ⟨hmain, ?_⟩
    intro hemp
    rw [hmain, hemp]
    simp [chatPairs_length, alternatesUA_chatPairs]

/-- chat_sequencing_witness evaluates the sequencing claim on a restored
ready session with an empty transcript and one concrete question. -/
theorem chat_sequencing_witness :
    (initState (some witnessData) [] "" none).result.isSome = true ∧
    (processQuestions [("How many anomalies?", "Seven anomalies were found.")]
        (initState (some witnessData) [] "" none)).messages
      = [{ role := .user, text := "How many anomalies?" },
         { role := .ai, text := "Seven anomalies were found." }] ∧
    (processQuestions [("How many anomalies?", "Seven anomalies were found.")]
        (initState (some witnessData) [] "" none)).messages.length = 2 := by
  have h := chat_sequencing.2 (initState (some witnessData) [] "" none)
    [("How many anomalies?", "Seven anomalies were found.")] rfl rfl
    (by intro p hp
        rw [List.mem_singleton] at hp
        subst hp
        exact ⟨by decide, by decide⟩)
  refine ⟨rfl, ?_, (h.2 rfl).1⟩
  rw [h.1]
  rfl

/-- draftState is a ready session with an empty transcript and a
non-empty draft in the question field. -/
def draftState : AnalyzerState :=
  { initState (some witnessData) [] "" none with question := "pending draft" }

/-- C6 counterexample: ask with the empty-string argument is not a no-op
in every state — the code falls back to the draft question field
(line 190, the empty string is falsy), so with a non-empty draft the call
is accepted, a Chat Service call is issued and the transcript grows from
0 to 2 messages, while the claim demands that ask of the empty string
always leave the transcript length unchanged. -/
theorem ask_empty_counterexample :
    draftState.messages.length = 0 ∧
    (sendQuestionStart (some "") draftState).snd = true ∧
    (askRun (some "") (some "an answer") draftState).messages.length = 2 := by
  exact ⟨rfl, rfl, rfl⟩

/-- C6 (amended): ask is a no-op leaving all session state unchanged
whenever the effective question text — the argument when it is a
non-empty string, otherwise the current draft — trims to empty, or no
result is loaded, or a question is already pending; ask of a purely-blank
string is always a no-op, and ask of the empty string is a no-op exactly
when the draft also trims to empty.  On chat-service failure of an
accepted question, exactly one assistant message with the fixed fallback
text is appended after the user message and the pending flag is
cleared. -/
theorem ask_guards_and_failure (s : AnalyzerState) (q a : Option String) :
    (effectiveText q s = "" ∨ s.result.isNone = true ∨ s.chatLoading = true →
      sendQuestionStart q s = (s, false) ∧ askRun q a s = s) ∧
    askRun (some "   ") a s = s ∧
    (jsTrim s.question = "" →
      askRun (some "") a s = s ∧ askRun none a s = s) ∧
    (effectiveText q s ≠ "" → s.result.isSome = true → s.chatLoading = false →
      askRun q none s =
        { s with messages := s.messages ++
            [{ role := .user, text := effectiveText q s },
             { role := .ai, text := chatFailText }],
                 question := "",
                 chatLoading := false,
                 pendingChat := none }) := by
  refine ⟨?_, ?_, ?_, ?_⟩
  · intro h
    exact ⟨sendQuestionStart_noop q s h, askRun_noop q a s h⟩
  · have he : effectiveText (some "   ") s = "" := rfl
    exact askRun_noop (some "   ") a s (Or.inl he)
  · intro hd
    have he1 : effectiveText (some "") s = "" := hd
    have he2 : effectiveText none s = "" := hd
    exact ⟨askRun_noop (some "") a s (Or.inl he1),
           askRun_noop none a s (Or.inl he2)⟩
  · intro ht hres hcl
    rw [askRun_go q none s ht hres hcl]
    rfl

/-- ask_guards_and_failure_witness evaluates the amended ask contract on
concrete states: a blank question is a no-op, and a failed chat call
appends the user message and the fixed fallback. -/
theorem ask_guards_and_failure_witness :
    askRun (some "   ") (some "x") draftState = draftState ∧
    (askRun (some "Why?") none draftState).messages
      = [{ role := .user, text := "Why?" }, { role := .ai, text := chatFailText }] ∧
    (askRun (some "Why?") none draftState).chatLoading = false := by
  have h1 := (ask_guards_and_failure draftState (some "   ") (some "x")).2.1
  have h2 := (ask_guards_and_failure draftState (some "Why?") none).2.2.2
    (by decide) rfl rfl
  refine ⟨h1, ?_, ?_⟩
  · rw [h2]
    rfl
  · rw [h2]

/-- malformedStored is a stored blob that parses but is not a valid
result/transcript pair: it has a messages array and no result field. -/
def malformedStored : JsVal :=
  .vobj [("messages", .varr [.vobj [("role", .vstr "ai"), ("text", .vstr "hello")]])]

/-- C7 counterexample: a parsed stored value that is malformed as a
result/transcript pair (it lacks the result field) is not treated as
absent — the initializer of lines 76-91 restores each field
independently, so the session starts in phase idle but with a non-empty
restored transcript rather than the empty state the claim demands. -/
theorem restore_malformed_counterexample :
    jsLoadState (some (some malformedStored)) = some malformedStored ∧
    initPhase (restoredInit (some (some malformedStored))) = .idle ∧
    (restoredInit (some (some malformedStored))).result = .vnull ∧
    jsArrLen (restoredInit (some (some malformedStored))).messages = 1 := by
  exact ⟨rfl, rfl, rfl, rfl⟩

/-- C7 (amended): a missing key or an unparseable stored value is
discarded silently and yields the full default state (idle, empty); a
parsed stored value is restored field by field with per-field defaults —
the phase is ready exactly when the restored result field is truthy, and
the transcript field is restored independently of the result field. -/
theorem restore_fields_independent :
    (jsLoadState none = none ∧ jsLoadState (some none) = none) ∧
    restoredInit none =
      { areaName := .vstr "", fileName := .vnull,
        result := .vnull, messages := .varr [] } ∧
    restoredInit (some none) =
      { areaName := .vstr "", fileName := .vnull,
        result := .vnull, messages := .varr [] } ∧
    (∀ v : JsVal, initPhase (restoredInit (some (some v))) = .ready ↔
      truthy (getField v "result") = true) ∧
    (∀ v : JsVal, truthy (getField v "result") = true →
      (restoredInit (some (some v))).result = getField v "result" ∧
      (restoredInit (some (some v))).messages
        = jsOr (getField v "messages") (.varr [])) := by
  refine ⟨⟨rfl, rfl⟩, rfl, rfl, ?_, ?_⟩
  · intro v
    have hred : restoredInit (some (some v)) =
        { areaName := jsOr (getField v "areaName") (.vstr ""),
          fileName := jsOr (getField v "fileName") .vnull,
          result := jsOr (getField v "result") .vnull,
          messages := jsOr (getField v "messages") (.varr []) } := rfl
    constructor
    · intro hp
      rw [hred] at hp
      simp only [initPhase] at hp
      rw [truthy_jsOr_null] at hp
      by_cases ht : truthy (getField v "result") = true
      · exact ht
      · rw [if_neg ht] at hp
        exact absurd hp (by simp)
    · intro ht
      rw [hred]
      simp only [initPhase]
      rw [truthy_jsOr_null, if_pos ht]
  · intro v ht
    refine ⟨?_, rfl⟩
    show jsOr (getField v "result") .vnull = getField v "result"
    simp [jsOr, ht]

/-- restore_fields_independent_witness evaluates restoration at a
well-formed stored value and at a parse failure. -/
theorem restore_fields_independent_witness :
    initPhase (restoredInit (some (some (.vobj [("result", .vstr "r")])))) = .ready ∧
    restoredInit (some none) =
      { areaName := .vstr "", fileName := .vnull,
        result := .vnull, messages := .varr [] } := by
  have h := restore_fields_independent
  exact ⟨(h.2.2.2.1 (.vobj [("result", .vstr "r")])).mpr rfl, h.2.2.1⟩

/-- C8: in every reachable configuration, an in-flight analysis implies
no loaded result and every chat attempt is rejected synchronously with no
call issued; the phase ready implies a loaded result; and no event that
lands in an in-flight analysis touches the persisted storage — the save
effect fires only on states holding a result. -/
theorem session_phase_invariant (c : AnalyzerState × Option Snapshot)
    (h : Reachable c) :
    (c.1.analyzing = true →
      c.1.result = none ∧
      ∀ q : Option String, sendQuestionStart q c.1 = (c.1, false)) ∧
    (phase c.1 = .ready → c.1.result.isSome = true) ∧
    (∀ ev : Ev, (applyEv ev c).1.analyzing = true → (applyEv ev c).2 = c.2) := by
  refine ⟨?_, ?_, ?_⟩
  · intro hA
    have hres := reachable_inv c h hA
    exact ⟨hres, fun q =>
      sendQuestionStart_noop q c.1 (Or.inr (Or.inl (by simp [hres])))⟩
  · intro hp
    simp only [phase] at hp
    split at hp
    · exact absurd hp (by simp)
    · split at hp
      · exact absurd hp (by simp)
      · split at hp
        · assumption
        · exact absurd hp (by simp)
  · intro ev hA
    have hres : (applyEv ev c).1.result = none :=
      reachable_inv (applyEv ev c) (Reachable.step ev c h) hA
    cases ev
    case clearAll =>
      by_cases hcr : c.1.result.isSome = true
      · simp only [applyEv, if_pos hcr] at hA
        have hca : c.1.analyzing = true := hA
        have := reachable_inv c h hca
        rw [this] at hcr
        simp at hcr
      · simp only [applyEv]
        rw [if_neg hcr]
    all_goals
      simp only [applyEv] at hres ⊢
      simp [persistAfter, hres]

/-- witnessAnalyzingConfig is the concrete reachable configuration with
an analysis in flight. -/
def witnessAnalyzingConfig : AnalyzerState × Option Snapshot :=
  applyEv .analyzeStart
    (applyEv (.selectFile (some ⟨"bills.csv"⟩))
      (initState none [] "" none, (none : Option Snapshot)))

/-- session_phase_invariant_witness evaluates the invariant at the
concrete reachable in-flight configuration. -/
theorem session_phase_invariant_witness :
    witnessAnalyzingConfig.1.analyzing = true ∧
    witnessAnalyzingConfig.1.result = none ∧
    sendQuestionStart none witnessAnalyzingConfig.1
      = (witnessAnalyzingConfig.1, false) ∧
    (applyEv (.chatStart (some "hi")) witnessAnalyzingConfig).2
      = witnessAnalyzingConfig.2 := by
  have hreach : Reachable witnessAnalyzingConfig :=
    Reachable.step .analyzeStart
      (applyEv (.selectFile (some ⟨"bills.csv"⟩))
        (initState none [] "" none, (none : Option Snapshot)))
      (Reachable.step (.selectFile (some ⟨"bills.csv"⟩))
        (initState none [] "" none, (none : Option Snapshot))
        (Reachable.init none [] "" none none))
  have h := session_phase_invariant witnessAnalyzingConfig hreach
  have h1 := h.1 rfl
  exact ⟨rfl, h1.1, h1.2 none, h.2.2 (.chatStart (some "hi")) rfl⟩

/-- C9: reset from any reachable configuration holding a result yields
the idle phase with candidate, result, transcript and error all cleared
and the persisted storage removed; and reset is the only operation that
purges persisted state — every other event maps a present stored value to
a present stored value. -/
theorem reset_clears_everything :
    (∀ (s : AnalyzerState) (st : Option Snapshot), Reachable (s, st) →
      s.result.isSome = true →
      phase (applyEv .clearAll (s, st)).1 = .idle ∧
      (applyEv .clearAll (s, st)).1.file = none ∧
      (applyEv .clearAll (s, st)).1.result = none ∧
      (applyEv .clearAll (s, st)).1.messages = [] ∧
      (applyEv .clearAll (s, st)).1.error = .vnull ∧
      (applyEv .clearAll (s, st)).2 = none) ∧
    (∀ (ev : Ev) (c : AnalyzerState × Option Snapshot) (v : Snapshot),
      ev ≠ Ev.clearAll → c.2 = some v → (applyEv ev c).2 ≠ none) := by
  constructor
  · intro s st h hres
    have hA : s.analyzing = false := by
      cases hax : s.analyzing
      · rfl
      · have := reachable_inv (s, st) h hax
        rw [this] at hres
        simp at hres
    have happ : applyEv Ev.clearAll (s, st) = (clearAnalysis s, none) := by
      simp only [applyEv]
      rw [if_pos hres]
    rw [happ]
    refine ⟨?_, rfl, rfl, rfl, rfl, rfl⟩
    simp [phase, clearAnalysis, hA, JsVal.isNull]
  · intro ev c v hne hsome
    cases ev
    case clearAll => exact absurd rfl hne
    all_goals
      simp only [applyEv, persistAfter]
      split
      · simp
      · rw [hsome]
        simp

/-- witnessReadyConfig is the concrete reachable configuration holding a
completed analysis and its persisted snapshot. -/
def witnessReadyConfig : AnalyzerState × Option Snapshot :=
  applyEv (.analyzeOk witnessData) witnessAnalyzingConfig

/-- reset_clears_everything_witness evaluates reset at the concrete ready
configuration. -/
theorem reset_clears_everything_witness :
    witnessReadyConfig.1.result.isSome = true ∧
    phase (applyEv .clearAll witnessReadyConfig).1 = .idle ∧
    (applyEv .clearAll witnessReadyConfig).1.messages = [] ∧
    (applyEv .clearAll witnessReadyConfig).2 = none := by
  have hreach : Reachable witnessReadyConfig :=
    Reachable.step (.analyzeOk witnessData) witnessAnalyzingConfig
      (Reachable.step .analyzeStart
        (applyEv (.selectFile (some ⟨"bills.csv"⟩))
          (initState none [] "" none, (none : Option Snapshot)))
        (Reachable.step (.selectFile (some ⟨"bills.csv"⟩))
          (initState none [] "" none, (none : Option Snapshot))
          (Reachable.init none [] "" none none)))
  have h := reset_clears_everything.1 witnessReadyConfig.1 witnessReadyConfig.2
    hreach rfl
  exact ⟨rfl, h.1, h.2.2.2.1, h.2.2.2.2.2⟩

/-- C10: an analysis run that ends in failure neither writes nor clears
the persisted storage — the snapshot of the most recent successful
analysis, when one is stored, remains intact — even though the in-memory
result and transcript are cleared when the analysis starts and stay
cleared on failure, so restoring from storage after the failure still
yields the previously stored result and transcript. -/
theorem failed_analysis_preserves_storage (s : AnalyzerState)
    (st : Option Snapshot) (f : FileRef) (e : AnalyzeFailure) :
    s.file = some f → s.analyzing = false → s.result = none →
    ((applyEv .analyzeStart (s, st)).2 = st ∧
     (applyEv .analyzeStart (s, st)).1.result = none ∧
     (applyEv .analyzeStart (s, st)).1.messages = []) ∧
    ((applyEv (.analyzeFail e) (applyEv .analyzeStart (s, st))).2 = st ∧
     (applyEv (.analyzeFail e) (applyEv .analyzeStart (s, st))).1.result = none ∧
     (applyEv (.analyzeFail e) (applyEv .analyzeStart (s, st))).1.messages = [] ∧
     phase (applyEv (.analyzeFail e) (applyEv .analyzeStart (s, st))).1 = .errored ∧
     (applyEv (.analyzeFail e) (applyEv .analyzeStart (s, st))).1.file = some f) ∧
    (∀ snap : Snapshot, st = some snap →
      (restoreTyped (applyEv (.analyzeFail e)
        (applyEv .analyzeStart (s, st))).2).result = snap.result ∧
      (restoreTyped (applyEv (.analyzeFail e)
        (applyEv .analyzeStart (s, st))).2).messages = snap.messages) := by
  intro hf ha hr
  have hstart : applyEv .analyzeStart (s, st) =
      ({ s with analyzing := true, error := .vnull, result := none,
                messages := [], showMonthly := false }, st) := by
    simp only [applyEv, applyUi]
    rw [clickAnalyze_start s f hf ha hr]
    simp [persistAfter]
  rw [hstart]
  have hfail : applyEv (.analyzeFail e)
      (({ s with analyzing := true, error := .vnull, result := none,
                 messages := [], showMonthly := false } : AnalyzerState), st) =
      ({ s with analyzing := false, error := extractDetail e, result := none,
                messages := [], showMonthly := false }, st) := by
    simp [applyEv, applyUi, handleAnalyzeFail, persistAfter]
  rw [hfail]
  refine ⟨⟨rfl, rfl, rfl⟩, ⟨rfl, rfl, rfl, ?_, by simp [hf]⟩, ?_⟩
  · simp [phase, extractDetail_not_null e]
  · intro snap hsnap
    rw [hsnap]
    exact ⟨rfl, rfl⟩

/-- failed_analysis_preserves_storage_witness evaluates the frame
property at a concrete session carrying a previously stored snapshot. -/
theorem failed_analysis_preserves_storage_witness :
    (applyEv (.analyzeFail corruptFailure)
      (applyEv .analyzeStart (witnessReadyBase,
        some { areaName := "", fileName := some "old.xlsx",
               result := some witnessData,
               messages := [{ role := .ai, text := "seed" }] }))).2
      = some { areaName := "", fileName := some "old.xlsx",
               result := some witnessData,
               messages := [{ role := .ai, text := "seed" }] } ∧
    (restoreTyped (applyEv (.analyzeFail corruptFailure)
      (applyEv .analyzeStart (witnessReadyBase,
        some { areaName := "", fileName := some "old.xlsx",
               result := some witnessData,
               messages := [{ role := .ai, text := "seed" }] }))).2).result
      = some witnessData := by
  have h := failed_analysis_preserves_storage witnessReadyBase
    (some { areaName := "", fileName := some "old.xlsx",
            result := some witnessData,
            messages := [{ role := .ai, text := "seed" }] })
    ⟨"bills.csv"⟩ corruptFailure rfl rfl rfl
  exact ⟨h.2.1.1,
    (h.2.2 { areaName := "", fileName := some "old.xlsx",
             result := some witnessData,
             messages := [{ role := .ai, text := "seed" }] } rfl).1⟩

end SmartBill
